import Mathlib

/-!
Shallow embedding of src/FocusX-120min.py (class PomodoroBlocker).

The program is a tkinter Pomodoro blocker.  Its mutable state lives in the
fields of the single PomodoroBlocker object; we embed that state as the
structure App below and each method as a state-passing function.  pynput
listener objects are embedded as Bool started-flags in creation order
(earliest first); the Python attributes self.mouse_listener and
self.keyboard_listener always reference the most recently created listener,
i.e. the last element of the list.  Audio mute calls are guarded by
self.audio (the endpoint initialization may fail), which we keep as a Bool
field.  Durations and the displayed time are in seconds.
-/

/-- Phase of a session: work or break (is_work_session true / false). -/
inductive Phase
  | work
  | brk
  deriving DecidableEq

/-- self.work_duration = 120 * 60 seconds. -/
def workDuration : Nat := 120 * 60

/-- self.rest_duration = 7 * 60 seconds. -/
def restDuration : Nat := 7 * 60

/-- The observable enforcement state of the spec: inputBlocked is
self.blocking, audioMuted the system mute flag the program drives. -/
structure EnforcementState where
  inputBlocked : Bool
  audioMuted : Bool
  deriving DecidableEq

/-- Mutable state of the PomodoroBlocker object.  mouseListeners and
keyboardListeners hold the started-flag of every listener ever created, in
creation order; the Python attribute references the last element. -/
structure App where
  isRunning : Bool
  isWorkSession : Bool
  blocking : Bool
  audio : Bool
  muted : Bool
  timeVar : Nat
  overlay : Bool
  nightOverlay : Bool
  mouseListeners : List Bool
  keyboardListeners : List Bool
  activeTimerThreads : Nat
  deriving DecidableEq

/-- State established by PomodoroBlocker.__init__: not running, work session
flag true, nothing blocked or muted, display 120:00, no overlays, no
listeners, no timer thread. -/
def initApp : App :=
  { isRunning := false
    isWorkSession := true
    blocking := false
    audio := true
    muted := false
    timeVar := workDuration
    overlay := false
    nightOverlay := false
    mouseListeners := []
    keyboardListeners := []
    activeTimerThreads := 0 }

/-- Stop the most recently created listener (the one self.mouse_listener or
self.keyboard_listener references); no-op on an empty history, mirroring the
`if self.mouse_listener` guard. -/
def stopLast (l : List Bool) : List Bool :=
  l.set (l.length - 1) false

/-- block_input: set self.blocking, create and start a fresh mouse listener
and a fresh keyboard listener; the attributes now reference the new pair. -/
def block_input (s : App) : App :=
  { s with blocking := true
           mouseListeners := s.mouseListeners ++ [true]
           keyboardListeners := s.keyboardListeners ++ [true] }

/-- unblock_input: clear self.blocking and stop the referenced (most recent)
mouse and keyboard listeners only. -/
def unblock_input (s : App) : App :=
  { s with blocking := false
           mouseListeners := stopLast s.mouseListeners
           keyboardListeners := stopLast s.keyboardListeners }

/-- mute_audio: sets mute only when the audio endpoint was initialized; any
platform error is caught and printed, so the call is total. -/
def mute_audio (s : App) : App :=
  if s.audio then { s with muted := true } else s

/-- unmute_audio: clears mute only when the audio endpoint was initialized;
any platform error is caught and printed, so the call is total. -/
def unmute_audio (s : App) : App :=
  if s.audio then { s with muted := false } else s

/-- The {inputBlocked, audioMuted} projection of the program state. -/
def enf (s : App) : EnforcementState :=
  { inputBlocked := s.blocking, audioMuted := s.muted }

/-- cleanup: destroy the break overlay if present, unblock input, unmute
audio, reset the displayed time to 120:00 and the session flag to work. -/
def cleanup (s : App) : App :=
  let s1 := { s with overlay := false }
  let s2 := unmute_audio (unblock_input s1)
  { s2 with timeVar := workDuration, isWorkSession := true }

/-- stop_timer (emergency stop): clear is_running, then cleanup. -/
def stop_timer (s : App) : App :=
  cleanup { s with isRunning := false }

/-- start_timer: set is_running and is_work_session, then spawn one more
_run_timer daemon thread.  Nothing stops a previously spawned thread: a
running thread only exits when it observes is_running = false, and
start_timer sets is_running to true. -/
def start_timer (s : App) : App :=
  { s with isRunning := true
           isWorkSession := true
           activeTimerThreads := s.activeTimerThreads + 1 }

/-- A state with one session in flight: is_running true and a single
_run_timer thread alive, as after one start_timer call from the initial
state once its thread has been spawned. -/
def runningApp : App :=
  { initApp with isRunning := true, activeTimerThreads := 1 }

/-- create_night_overlay: returns at once if the night overlay exists;
otherwise records the overlay and calls block_input. -/
def create_night_overlay (s : App) : App :=
  if s.nightOverlay then s
  else block_input { s with nightOverlay := true }

/-- remove_night_overlay: if the night overlay exists, destroy it, clear the
reference and call unblock_input. -/
def remove_night_overlay (s : App) : App :=
  if s.nightOverlay then unblock_input { s with nightOverlay := false } else s

/-- One iteration of the monitor_time loop in start_time_monitoring, with
the sampled is_night_time() value passed in: at night, create the overlay
only when absent; out of night, remove it only when present. -/
def monitor_iteration (isNight : Bool) (s : App) : App :=
  if isNight then
    (if s.nightOverlay then s else create_night_overlay s)
  else
    (if s.nightOverlay then remove_night_overlay s else s)

/-- State after n monitor iterations that all sample is_night_time() = true,
starting from s. -/
def monitor_trace (s : App) : Nat → App
  | 0 => s
  | n + 1 => monitor_iteration true (monitor_trace s n)

/-- One night-poll of the monitor loop, also counting how many times
block_input is invoked during that poll (create_night_overlay calls it
exactly once, and only when the overlay is absent). -/
def monitor_iteration_count (isNight : Bool) (s : App) : App × Nat :=
  if isNight then
    (if s.nightOverlay then (s, 0) else (create_night_overlay s, 1))
  else
    (if s.nightOverlay then (remove_night_overlay s, 0) else (s, 0))

/-- Run n consecutive monitor polls that all sample is_night_time() = true,
accumulating the total number of block_input calls. -/
def monitor_run : Nat → App → App × Nat
  | 0, s => (s, 0)
  | n + 1, s =>
      let p := monitor_iteration_count true s
      let q := monitor_run n p.1
      (q.1, p.2 + q.2)

/-- Toggle of is_work_session, `self.is_work_session = not self.is_work_session`. -/
def toggle : Phase → Phase
  | Phase.work => Phase.brk
  | Phase.brk => Phase.work

/-- Duration of a phase: work_duration for work, rest_duration for break. -/
def durOf (w b : Nat) : Phase → Nat
  | Phase.work => w
  | Phase.brk => b

/-- Phase and currently displayed countdown value of the _run_timer loop. -/
structure SchedState where
  phase : Phase
  dur : Nat
  deriving DecidableEq

/-- One second of _run_timer while is_running stays true, for positive
durations: countdown displays dur, sleeps one second and decrements; when
the value would reach 0 the countdown loop exits, _run_timer toggles
is_work_session and the next countdown immediately displays the new phase
duration. -/
def sched_step (w b : Nat) (s : SchedState) : SchedState :=
  if s.dur ≤ 1 then
    let p := toggle s.phase
    { phase := p, dur := durOf w b p }
  else
    { phase := s.phase, dur := s.dur - 1 }

/-- Observed (phase, displayed remaining) t seconds after start_timer, for a
run during which is_running stays true: the loop starts in the work phase
displaying the full work duration. -/
def sched_trace (w b : Nat) : Nat → SchedState
  | 0 => { phase := Phase.work, dur := w }
  | t + 1 => sched_step w b (sched_trace w b t)

/-- Final value of the local variable duration when countdown returns:
`while duration > 0 and self.is_running:` sleeps and decrements, so with
is_running held constant the loop drains to 0 when running and exits at once
otherwise. -/
def countdown_final (running : Bool) : Nat → Nat
  | 0 => 0
  | d + 1 => if running then countdown_final running d else d + 1

/-- Value of is_work_session at the start of the n-th iteration of the
_run_timer while loop (counting from 0), for a run in which is_running stays
true: start_timer initializes it to true and each iteration ends with
`self.is_work_session = not self.is_work_session`. -/
def work_flag : Nat → Bool
  | 0 => true
  | n + 1 => !(work_flag n)

/-- Phase entered by the n-th iteration of the _run_timer loop: the work
branch when is_work_session is true, the break branch otherwise. -/
def phase_entered (n : Nat) : Phase :=
  if work_flag n then Phase.work else Phase.brk

/-- Outcome of one NTP request in sync_time: either a returned offset, or a
failure of one of the caught kinds (ntplib.NTPException, socket.gaierror,
socket.timeout), on which the loop continues with the next server. -/
inductive NtpAttempt
  | ok (offset : Int)
  | failed
  deriving DecidableEq

/-- sync_time: walk the server list in order; the first successful response
sets self.time_offset and returns; a caught failure moves on; if every
server fails, a warning is printed and the held offset is left unchanged. -/
def sync_time : List NtpAttempt → Int → Int
  | [], off => off
  | NtpAttempt.ok o :: _, _ => o
  | NtpAttempt.failed :: rest, off => sync_time rest off

/-- get_accurate_time: when self.time_offset is nonzero (Python truthiness)
the local clock reading is shifted by the offset, otherwise the local clock
reading is returned unchanged. -/
def get_accurate_time (localNow offset : Int) : Int :=
  if offset ≠ 0 then localNow + offset else localNow

/-- is_night_time on the local calendar hour of get_accurate_time():
`return 0 <= current_time.hour < 6`, the window being hardcoded to [0, 6). -/
def is_night_time (hour : Nat) : Bool :=
  decide (0 ≤ hour) && decide (hour < 6)

/-! ## Helper lemmas -/

/-- block_input leaves the night-overlay reference untouched. -/
theorem block_input_nightOverlay (s : App) :
    (block_input s).nightOverlay = s.nightOverlay := rfl

/-- After create_night_overlay on a state without the overlay, the overlay
reference is set. -/
theorem create_night_overlay_sets (s : App) (h : s.nightOverlay = false) :
    (create_night_overlay s).nightOverlay = true := by
  simp [create_night_overlay, h, block_input]

/-- While the night overlay exists, a night poll is a no-op. -/
theorem monitor_iteration_skip (s : App) (h : s.nightOverlay = true) :
    monitor_iteration true s = s := by
  simp [monitor_iteration, h]

/-- While the night overlay exists, n further night polls call block_input
zero times and keep the state unchanged. -/
theorem monitor_run_steady (n : Nat) (s : App) (h : s.nightOverlay = true) :
    monitor_run n s = (s, 0) := by
  induction n with
  | zero => rfl
  | succ n ih =>
      simp [monitor_run, monitor_iteration_count, h, ih]

/-- The countdown loop drains its duration to 0 when is_running holds. -/
theorem countdown_final_running (d : Nat) : countdown_final true d = 0 := by
  induction d with
  | zero => rfl
  | succ d ih => simpa [countdown_final] using ih

/-- sync_time leaves the held offset unchanged when every attempt fails. -/
theorem sync_time_all_failed (servers : List NtpAttempt)
    (h : ∀ r ∈ servers, r = NtpAttempt.failed) (off : Int) :
    sync_time servers off = off := by
  induction servers with
  | nil => rfl
  | cons r rest ih =>
      have hr : r = NtpAttempt.failed := h r (List.mem_cons_self r rest)
      subst hr
      exact ih fun x hx => h x (List.mem_cons_of_mem _ hx)

/-- Closed form of the scheduler trace during the first work phase. -/
theorem sched_trace_work (w b : Nat) :
    ∀ t, t < w → sched_trace w b t = { phase := Phase.work, dur := w - t } := by
  intro t
  induction t with
  | zero => intro _; simp [sched_trace]
  | succ t ih =>
      intro ht
      have ht' : t < w := Nat.lt_of_succ_lt ht
      have hd : ¬ (w - t ≤ 1) := by omega
      rw [sched_trace, ih ht', sched_step]
      simp only [hd, if_false]
      have : w - t - 1 = w - (t + 1) := by omega
      rw [this]

/-- At the instant w seconds after start the scheduler has just entered the
break phase, displaying the break duration. -/
theorem sched_trace_at_work_end (w b : Nat) (hw : 0 < w) :
    sched_trace w b w = { phase := Phase.brk, dur := b } := by
  obtain ⟨t, rfl⟩ : ∃ t, w = t + 1 := ⟨w - 1, by omega⟩
  rw [sched_trace, sched_trace_work (t + 1) b t (Nat.lt_succ_self t)]
  simp [sched_step, toggle, durOf]

/-! ## Claims -/

/-- Claim C1: for every state of the session (any phase, running or not,
with or without an active overlay), stop_timer results in is_running false
(Idle), blocking false, mute cleared, the displayed time reset to the
configured work duration, and the session flag back at work; every call on
the way (overlay destroy, unblock_input, unmute_audio) is total, so no error
condition elsewhere prevents this, and the flags are set synchronously, well
within one tick interval.  The mute hypothesis says the audio endpoint
initialized, or else the program never muted in the first place. -/
theorem C1_stop_restores_idle_unblocked (s : App)
    (h : s.audio = true ∨ s.muted = false) :
    (stop_timer s).isRunning = false ∧ (stop_timer s).blocking = false ∧
    (stop_timer s).muted = false ∧ (stop_timer s).timeVar = workDuration ∧
    (stop_timer s).isWorkSession = true := by
  cases ha : s.audio with
  | true => simp [stop_timer, cleanup, unblock_input, unmute_audio, ha]
  | false =>
      have hm : s.muted = false := by
        rcases h with h | h
        · rw [ha] at h; cases h
        · exact h
      simp [stop_timer, cleanup, unblock_input, unmute_audio, ha, hm]

/-- Witness for C1 at a concrete fully-perturbed state. -/
theorem C1_witness :
    let s : App :=
      { isRunning := true, isWorkSession := false, blocking := true,
        audio := true, muted := true, timeVar := 17, overlay := true,
        nightOverlay := true, mouseListeners := [true, true],
        keyboardListeners := [true], activeTimerThreads := 1 }
    (stop_timer s).isRunning = false ∧ (stop_timer s).blocking = false ∧
    (stop_timer s).muted = false ∧ (stop_timer s).timeVar = workDuration ∧
    (stop_timer s).isWorkSession = true :=
  C1_stop_restores_idle_unblocked _ (Or.inl rfl)

/-- Claim C2 analysis: the claim says that while isNight is true, an
unblockInput issued by the scheduler's phase transition is superseded and
the final observed inputBlocked value is true.  On the code this fails: once
the night overlay exists, every further night poll of monitor_time sees
`self.night_overlay` non-None and does nothing, so the monitor never
re-asserts the block; after the scheduler's work-phase unblock_input the
blocking flag stays false for any number of subsequent night polls. -/
theorem C2_unblock_never_superseded_at_night :
    ∀ n : Nat,
      (monitor_trace (unblock_input (create_night_overlay initApp)) n).blocking
        = false := by
  have hfix : ∀ m : Nat,
      monitor_trace (unblock_input (create_night_overlay initApp)) m
        = unblock_input (create_night_overlay initApp) := by
    intro m
    induction m with
    | zero => rfl
    | succ m ih =>
        rw [monitor_trace, ih]
        exact monitor_iteration_skip _ rfl
  intro n
  rw [hfix n]
  rfl

/-- Claim C3: the phase sequence entered by the _run_timer loop is strictly
alternating: the phase of iteration n + 1 always differs from the phase of
iteration n, for any number of cycles (a stopped run only truncates this
sequence, which preserves alternation). -/
theorem C3_phase_sequence_alternates (n : Nat) :
    phase_entered (n + 1) ≠ phase_entered n := by
  cases hf : work_flag n <;> simp [phase_entered, work_flag, hf]

/-- Claim C4 analysis: the claim says start while running overwrites the
in-flight session, leaving exactly one active session.  On the code this
fails: start_timer spawns a second _run_timer thread and leaves is_running
true, so the first thread never observes an exit condition and two timer
loops are active afterwards. -/
theorem C4_start_while_running_leaves_two_timer_loops :
    (start_timer runningApp).activeTimerThreads = 2 ∧
    (start_timer runningApp).isRunning = true :=
  ⟨rfl, rfl⟩

/-- Counterexample for claim C5 as stated: calling block_input when already
blocked is not a no-op on the program state — from the initial state, two
calls yield a different state than one call (a second started listener pair
exists). -/
theorem C5_counterexample_double_block_changes_state :
    block_input (block_input initApp) ≠ block_input initApp := by
  decide

/-- Claim C5 (amended): calling block_input twice in a row produces the same
observable EnforcementState {inputBlocked, audioMuted} as calling it once,
and raises no error; but it is not a no-op on the underlying state — each
call creates and starts a fresh mouse and keyboard listener pair, leaving
the earlier pair running. -/
theorem C5_block_idempotent_on_enforcement_state (s : App) :
    enf (block_input (block_input s)) = enf (block_input s) ∧
    (block_input (block_input s)).mouseListeners.length
      = s.mouseListeners.length + 2 ∧
    (block_input (block_input s)).keyboardListeners.length
      = s.keyboardListeners.length + 2 := by
  refine ⟨rfl, ?_, ?_⟩ <;> simp [block_input]

/-- Claim C6: for every valid config (both durations positive), during the
first workDuration seconds the scheduler stays in Work with remaining
w - t; at the instant t = w it has transitioned to Break (the countdown's
internal duration having drained to 0 at that instant) displaying the break
duration; and the transition in that interval happens exactly once, at
t = w. -/
theorem C6_single_work_to_break_transition (w b : Nat)
    (hw : 0 < w) (hb : 0 < b) :
    (∀ t, t < w → sched_trace w b t = { phase := Phase.work, dur := w - t }) ∧
    sched_trace w b w = { phase := Phase.brk, dur := b } ∧
    countdown_final true w = 0 ∧
    (∀ t, t < w →
      (((sched_trace w b t).phase ≠ (sched_trace w b (t + 1)).phase)
        ↔ t + 1 = w)) := by
  have hb' : 0 < b := hb
  refine ⟨sched_trace_work w b, sched_trace_at_work_end w b hw,
    countdown_final_running w, ?_⟩
  intro t ht
  by_cases hcase : t + 1 = w
  · subst hcase
    rw [sched_trace_work (t + 1) b t (Nat.lt_succ_self t),
      sched_trace_at_work_end (t + 1) b hw]
    simp
  · have ht1 : t + 1 < w := by omega
    rw [sched_trace_work w b t ht, sched_trace_work w b (t + 1) ht1]
    simp [hcase]

/-- Witness for C6 at the spec's example config workDuration = 2,
breakDuration = 1: phase Work remaining 2 at t = 0, Break remaining 1 at
t = 2, Work remaining 2 at t = 3. -/
theorem C6_witness :
    sched_trace 2 1 0 = { phase := Phase.work, dur := 2 } ∧
    sched_trace 2 1 2 = { phase := Phase.brk, dur := 1 } ∧
    sched_trace 2 1 3 = { phase := Phase.work, dur := 2 } ∧
    ((∀ t, t < 2 → sched_trace 2 1 t = { phase := Phase.work, dur := 2 - t }) ∧
      sched_trace 2 1 2 = { phase := Phase.brk, dur := 1 } ∧
      countdown_final true 2 = 0 ∧
      (∀ t, t < 2 →
        (((sched_trace 2 1 t).phase ≠ (sched_trace 2 1 (t + 1)).phase)
          ↔ t + 1 = 2))) :=
  ⟨by decide, by decide, by decide,
    C6_single_work_to_break_transition 2 1 (by decide) (by decide)⟩

/-- Claim C7: the night monitor is edge-triggered — across any N ≥ 1
consecutive polls that all sample is_night_time() = true, starting from a
state without the night overlay, block_input is called exactly once, not N
times. -/
theorem C7_night_monitor_edge_triggered (N : Nat) (s : App)
    (hN : 1 ≤ N) (hov : s.nightOverlay = false) :
    (monitor_run N s).2 = 1 := by
  obtain ⟨n, rfl⟩ : ∃ n, N = n + 1 := ⟨N - 1, by omega⟩
  have h1 : monitor_iteration_count true s = (create_night_overlay s, 1) := by
    simp [monitor_iteration_count, hov]
  have h2 := monitor_run_steady n (create_night_overlay s)
    (create_night_overlay_sets s hov)
  simp [monitor_run, h1, h2]

/-- Witness for C7 at N = 3 from the initial state. -/
theorem C7_witness :
    1 ≤ 3 ∧ initApp.nightOverlay = false ∧ (monitor_run 3 initApp).2 = 1 :=
  ⟨by decide, rfl, C7_night_monitor_edge_triggered 3 initApp (by decide) rfl⟩

/-- Claim C8: is_night_time is a total function of the hour (defined for
every input by construction, no side effects) that tests membership of the
local calendar hour in the half-open interval [0, 6), the window the source
hardcodes; hour 0 yields true, hour 3 yields true, hour 6 yields false. -/
theorem C8_is_night_time_iff_hour_in_window :
    (∀ h : Nat, is_night_time h = true ↔ (0 ≤ h ∧ h < 6)) ∧
    is_night_time 0 = true ∧ is_night_time 3 = true ∧
    is_night_time 6 = false := by
  refine ⟨?_, rfl, rfl, rfl⟩
  intro h
  simp [is_night_time]

/-- Claim C9: when every reference server attempt fails with one of the
caught exception kinds, sync_time returns without raising (it is a total
function of the attempt list), the held offset stays at its initial value 0,
only a warning is printed, and get_accurate_time then returns exactly the
local clock reading. -/
theorem C9_all_servers_unreachable_uses_local_clock
    (servers : List NtpAttempt) (localNow : Int)
    (hfail : ∀ r ∈ servers, r = NtpAttempt.failed) :
    sync_time servers 0 = 0 ∧
    get_accurate_time localNow (sync_time servers 0) = localNow := by
  have h0 : sync_time servers 0 = 0 := sync_time_all_failed servers hfail 0
  refine ⟨h0, ?_⟩
  rw [h0]
  simp [get_accurate_time]

/-- Witness for C9 with two failing servers and local clock reading 1000. -/
theorem C9_witness :
    (∀ r ∈ [NtpAttempt.failed, NtpAttempt.failed], r = NtpAttempt.failed) ∧
    (sync_time [NtpAttempt.failed, NtpAttempt.failed] 0 = 0 ∧
      get_accurate_time 1000
        (sync_time [NtpAttempt.failed, NtpAttempt.failed] 0) = 1000) :=
  ⟨by decide,
    C9_all_servers_unreachable_uses_local_clock _ 1000 (by decide)⟩

/-- Claim C10: after two consecutive block_input calls followed by one
unblock_input, only the most recently created mouse and keyboard listeners
are stopped; the pair created by the earlier call is still started, so input
interception persists even though the blocking flag is false. -/
theorem C10_earlier_listeners_survive_unblock :
    (unblock_input (block_input (block_input initApp))).mouseListeners
      = [true, false] ∧
    (unblock_input (block_input (block_input initApp))).keyboardListeners
      = [true, false] ∧
    (unblock_input (block_input (block_input initApp))).blocking = false := by
  decide
